import Mathlib

set_option maxRecDepth 8000

/-!
Shallow embedding of the Twilio ⇄ OpenAI realtime voice relay
(`main.py`): the base64 payload re-encoding performed on agent audio
deltas, the per-call session state, the two reader loops
(`receive_from_twilio`, `send_to_twilio`) as a step function over
interleaved inbound events, the `send_mark` and
`handle_speech_started_event` helpers, and the `initialize_session`
sequence.  The theorems at the end settle the specification claims.
-/

/-- Base64 alphabet: 6-bit value to character (RFC 4648, as produced by
Python `base64.b64encode`). -/
def encC (n : Nat) : Char :=
  if n < 26 then Char.ofNat (65 + n)
  else if n < 52 then Char.ofNat (97 + (n - 26))
  else if n < 62 then Char.ofNat (48 + (n - 52))
  else if n = 62 then '+'
  else '/'

/-- Base64 character to its 6-bit value; `none` for characters outside
the alphabet, including the padding character. -/
def decC (c : Char) : Option Nat :=
  if 65 ≤ c.toNat ∧ c.toNat ≤ 90 then some (c.toNat - 65)
  else if 97 ≤ c.toNat ∧ c.toNat ≤ 122 then some (c.toNat - 97 + 26)
  else if 48 ≤ c.toNat ∧ c.toNat ≤ 57 then some (c.toNat - 48 + 52)
  else if c.toNat = 43 then some 62
  else if c.toNat = 47 then some 63
  else none

/-- `base64.b64encode` on a byte list, producing the padded character
stream. -/
def b64encodeList : List Nat → List Char
  | [] => []
  | [b1] => [encC (b1 / 4), encC (b1 % 4 * 16), '=', '=']
  | [b1, b2] => [encC (b1 / 4), encC (b1 % 4 * 16 + b2 / 16), encC (b2 % 16 * 4), '=']
  | b1 :: b2 :: b3 :: rest =>
      encC (b1 / 4) :: encC (b1 % 4 * 16 + b2 / 16) ::
        encC (b2 % 16 * 4 + b3 / 64) :: encC (b3 % 64) :: b64encodeList rest

/-- `base64.b64decode` on a character list: quads of alphabet
characters, `=`-padding allowed only at the end; the unused low bits of
a padded quad are discarded without validation, as in Python's decoder.
`none` models the decoder raising `binascii.Error`. -/
def b64decodeList : List Char → Option (List Nat)
  | [] => some []
  | c1 :: c2 :: c3 :: c4 :: rest =>
      match decC c1, decC c2 with
      | some v1, some v2 =>
          if c3 = '=' ∧ c4 = '=' ∧ rest = [] then
            some [v1 * 4 + v2 / 16]
          else
            match decC c3 with
            | some v3 =>
                if c4 = '=' ∧ rest = [] then
                  some [v1 * 4 + v2 / 16, v2 % 16 * 16 + v3 / 4]
                else
                  match decC c4, b64decodeList rest with
                  | some v4, some bs =>
                      some ((v1 * 4 + v2 / 16) :: (v2 % 16 * 16 + v3 / 4) ::
                        (v3 % 4 * 64 + v4) :: bs)
                  | _, _ => none
            | none => none
      | _, _ => none
  | _ => none

theorem decC_encC : ∀ n < 64, decC (encC n) = some n := by decide

theorem encC_ne_pad : ∀ n < 64, encC n ≠ '=' := by decide

/-- Decoding a base64 encoding recovers the original bytes. -/
theorem b64_roundtrip : ∀ bs : List Nat, (∀ b ∈ bs, b < 256) →
    b64decodeList (b64encodeList bs) = some bs
  | [], _ => rfl
  | [b1], h => by
      have hb1 : b1 < 256 := h b1 (by simp)
      have h1 : b1 / 4 < 64 := by omega
      have h2 : b1 % 4 * 16 < 64 := by omega
      simp only [b64encodeList, b64decodeList, decC_encC _ h1, decC_encC _ h2,
        if_true, Option.some.injEq, List.cons.injEq, and_true]
      omega
  | [b1, b2], h => by
      have hb1 : b1 < 256 := h b1 (by simp)
      have hb2 : b2 < 256 := h b2 (by simp)
      have h1 : b1 / 4 < 64 := by omega
      have h2 : b1 % 4 * 16 + b2 / 16 < 64 := by omega
      have h3 : b2 % 16 * 4 < 64 := by omega
      simp only [b64encodeList, b64decodeList, decC_encC _ h1, decC_encC _ h2, decC_encC _ h3,
        encC_ne_pad _ h3, if_true, if_false, false_and, Option.some.injEq,
        List.cons.injEq, and_true]
      constructor <;> omega
  | b1 :: b2 :: b3 :: rest, h => by
      have hb1 : b1 < 256 := h b1 (by simp)
      have hb2 : b2 < 256 := h b2 (by simp)
      have hb3 : b3 < 256 := h b3 (by simp)
      have hrest : ∀ b ∈ rest, b < 256 := fun b hb => h b (by simp [hb])
      have ih := b64_roundtrip rest hrest
      have h1 : b1 / 4 < 64 := by omega
      have h2 : b1 % 4 * 16 + b2 / 16 < 64 := by omega
      have h3 : b2 % 16 * 4 + b3 / 64 < 64 := by omega
      have h4 : b3 % 64 < 64 := by omega
      show b64decodeList (encC (b1 / 4) :: encC (b1 % 4 * 16 + b2 / 16) ::
        encC (b2 % 16 * 4 + b3 / 64) :: encC (b3 % 64) :: b64encodeList rest) = _
      simp only [b64decodeList, decC_encC _ h1, decC_encC _ h2, decC_encC _ h3,
        decC_encC _ h4, encC_ne_pad _ h3, encC_ne_pad _ h4, false_and, if_false, ih,
        Option.some.injEq, List.cons.injEq]
      refine ⟨by omega, by omega, by omega, trivial⟩

/-- The relay's payload transform on agent audio deltas
(`base64.b64encode(base64.b64decode(delta)).decode()`); `none` models
the decode raising, which the reader's blanket handler turns into loop
exit. -/
def reencodePayload (delta : String) : Option String :=
  (b64decodeList delta.data).map fun bs => String.mk (b64encodeList bs)

theorem reencode_of_encode (bs : List Nat) (h : ∀ b ∈ bs, b < 256) :
    reencodePayload (String.mk (b64encodeList bs)) = some (String.mk (b64encodeList bs)) := by
  simp [reencodePayload, b64_roundtrip bs h]

/-! ## Data model: frames, messages, session state -/

/-- Outbound frame on the telephony (Twilio) websocket.  The media
frame's `streamSid` field carries the relay's current `stream_sid`
value verbatim, so it is `null` when no start event has arrived; the
mark frame is only built under a truthiness guard, so its `streamSid`
is a plain string. -/
inductive TwilioFrame where
  | media (streamSid : Option String) (payload : String)
  | mark (streamSid : String) (name : String)
deriving DecidableEq

/-- Message sent on the AI (OpenAI) websocket: the three
`initialize_session` control messages and the per-chunk audio append
produced by `receive_from_twilio`. -/
inductive AISend where
  | sessionUpdate (turnDetection inputFormat outputFormat voice language instructions : String)
      (modalities : List String)
  | conversationItemCreate (role text : String)
  | responseCreate
  | audioAppend (audio : String)
deriving DecidableEq

/-- A message the relay sends, on either connection. -/
inductive OutMsg where
  | toOpenAI (m : AISend)
  | toTwilio (f : TwilioFrame)
deriving DecidableEq

/-- Decoded JSON fields of an inbound Twilio message; `none` models an
absent key (whose subscript access raises `KeyError`), and an
unparsable timestamp is folded into `mediaTimestamp = none`. -/
structure TwilioData where
  event : Option String
  mediaTimestamp : Option Int
  mediaPayload : Option String
  startStreamSid : Option String
  markName : Option String
deriving DecidableEq

/-- An inbound Twilio frame: undecodable JSON (`json.loads` raises) or
a decoded message. -/
inductive TwilioMsg where
  | malformed
  | valid (d : TwilioData)
deriving DecidableEq

/-- Decoded JSON fields of an inbound OpenAI message; `delta = none`
models the `delta` key being absent. -/
structure OpenAIData where
  type : Option String
  delta : Option String
  item_id : Option String
deriving DecidableEq

/-- An inbound OpenAI frame: undecodable JSON or a decoded message. -/
inductive OpenAIMsg where
  | malformed
  | valid (d : OpenAIData)
deriving DecidableEq

/-- One occurrence delivered to the call: an inbound frame on either
connection, the Twilio client disconnecting (`WebSocketDisconnect`), or
the OpenAI connection closing (the `async for` over it ends). -/
inductive Event where
  | twilio (m : TwilioMsg)
  | twilioDisconnect
  | openai (m : OpenAIMsg)
  | openaiEof
deriving DecidableEq

/-- The per-call mutable closure state of `handle_media_stream`,
together with connection / reader-loop liveness flags. -/
structure CallState where
  stream_sid : Option String
  latest_media_timestamp : Int
  last_assistant_item : Option String
  mark_queue : List String
  openai_open : Bool
  twilio_open : Bool
  twilio_reader_alive : Bool
  openai_reader_alive : Bool
deriving DecidableEq

/-- State right after `initialize_session` returns and the two readers
are launched. -/
def initialState : CallState :=
  { stream_sid := none, latest_media_timestamp := 0, last_assistant_item := none,
    mark_queue := [], openai_open := true, twilio_open := true,
    twilio_reader_alive := true, openai_reader_alive := true }

/-- Python truthiness of a str-or-None value (`if stream_sid:`,
`if response.get("item_id"):`, `if last_assistant_item:`). -/
def truthy : Option String → Bool
  | none => false
  | some s => s != ""

/-! ## The two reader loops as step functions -/

/-- Effect of an uncaught exception escaping `receive_from_twilio`
(only `WebSocketDisconnect` is caught there): it propagates through
`asyncio.gather`, the `async with` block closes the OpenAI websocket,
and the handler's outer `except` ends the call, so both reader loops
stop.  Nothing in `main.py` closes the Twilio websocket on this path. -/
def teardownCall (s : CallState) : CallState :=
  { s with
      twilio_reader_alive := false
      openai_reader_alive := false
      openai_open := false }

/-- `handle_speech_started_event` in `main.py`: the body consists of a
single log statement; no session state is changed and nothing is
sent. -/
def handle_speech_started_event (s : CallState) : CallState × List OutMsg :=
  (s, [])

/-- `send_mark`: if `stream_sid` is truthy, send a mark frame to Twilio
and append "responsePart" to `mark_queue`; otherwise do nothing. -/
def send_mark (s : CallState) : CallState × List OutMsg :=
  match s.stream_sid with
  | some sid =>
      if sid != "" then
        ({ s with mark_queue := s.mark_queue ++ ["responsePart"] },
          [OutMsg.toTwilio (TwilioFrame.mark sid "responsePart")])
      else (s, [])
  | none => (s, [])

/-- One iteration of the `receive_from_twilio` loop body on one inbound
frame, returning the new state and the messages sent.  Undecodable JSON
or a missing required key raises, which only the teardown path
handles. -/
def receive_from_twilio_step (s : CallState) (m : TwilioMsg) : CallState × List OutMsg :=
  match m with
  | TwilioMsg.malformed => (teardownCall s, [])
  | TwilioMsg.valid d =>
      match d.event with
      | none => (teardownCall s, [])
      | some ev =>
          if ev == "media" && s.openai_open then
            match d.mediaTimestamp with
            | none => (teardownCall s, [])
            | some ts =>
                match d.mediaPayload with
                | none => (teardownCall { s with latest_media_timestamp := ts }, [])
                | some p =>
                    ({ s with latest_media_timestamp := ts },
                      [OutMsg.toOpenAI (AISend.audioAppend p)])
          else if ev == "start" then
            match d.startStreamSid with
            | none => (teardownCall s, [])
            | some sid => ({ s with stream_sid := some sid }, [])
          else if ev == "mark" && !s.mark_queue.isEmpty then
            ({ s with mark_queue := s.mark_queue.tail }, [])
          else (s, [])

/-- One iteration of the `send_to_twilio` loop body on one inbound
frame.  Any exception (undecodable JSON, `binascii.Error` from the
base64 decode, a send on a closed Twilio socket) is caught by that
loop's blanket handler, which logs and exits this reader only. -/
def send_to_twilio_step (s : CallState) (m : OpenAIMsg) : CallState × List OutMsg :=
  match m with
  | OpenAIMsg.malformed => ({ s with openai_reader_alive := false }, [])
  | OpenAIMsg.valid d =>
      match d.type, d.delta with
      | some "response.audio.delta", some delta =>
          match reencodePayload delta with
          | none => ({ s with openai_reader_alive := false }, [])
          | some payload =>
              if s.twilio_open then
                let s1 := if truthy d.item_id then
                    { s with last_assistant_item := d.item_id } else s
                let ms := send_mark s1
                (ms.1, OutMsg.toTwilio (TwilioFrame.media s.stream_sid payload) :: ms.2)
              else ({ s with openai_reader_alive := false }, [])
      | _, _ =>
          if d.type == some "input_audio_buffer.speech_started"
              && truthy s.last_assistant_item then
            handle_speech_started_event s
          else (s, [])

/-- One scheduler step of the call: deliver one event to the reader it
belongs to.  A dead reader processes nothing (its loop already exited).
On `WebSocketDisconnect` the Twilio reader closes the OpenAI websocket,
which also ends the OpenAI reader's iteration; on the OpenAI side
closing, that reader's loop simply ends. -/
def step (s : CallState) (e : Event) : CallState × List OutMsg :=
  match e with
  | Event.twilio m =>
      if s.twilio_reader_alive then receive_from_twilio_step s m else (s, [])
  | Event.twilioDisconnect =>
      if s.twilio_reader_alive then
        ({ s with
            twilio_open := false
            twilio_reader_alive := false
            openai_open := false
            openai_reader_alive := false }, [])
      else (s, [])
  | Event.openai m =>
      if s.openai_reader_alive && s.openai_open then send_to_twilio_step s m else (s, [])
  | Event.openaiEof =>
      if s.openai_reader_alive then
        ({ s with openai_open := false, openai_reader_alive := false }, [])
      else (s, [])

/-- Process a whole interleaved event trace, collecting sent
messages. -/
def run (s : CallState) : List Event → CallState × List OutMsg
  | [] => (s, [])
  | e :: tr =>
      let p := step s e
      let q := run p.1 tr
      (q.1, p.2 ++ q.2)

/-! ## Session initializer and supervisor sequencing -/

/-- The system instructions text from `main.py`. -/
def SYSTEM_MESSAGE : String :=
  "こんにちは。私は自動応答AIアシスタントです。フロントガラス交換に関するご用件をお話しください。できるかぎり丁寧にお答えしますので、どうぞお話しください。"

/-- The configured voice from `main.py`. -/
def VOICE : String := "onyx"

/-- `initialize_session`: the three messages sent on the fresh OpenAI
connection, in send order. -/
def initialize_session : List AISend :=
  [AISend.sessionUpdate "server_vad" "g711_ulaw" "g711_ulaw" VOICE "ja" SYSTEM_MESSAGE
      ["text", "audio"],
    AISend.conversationItemCreate "assistant"
      "こんにちは。AI音声アシスタントです。フロントガラス交換について何でもお話しください。",
    AISend.responseCreate]

/-- `handle_media_stream`: `await initialize_session(openai_ws)` runs
to completion before `asyncio.gather` launches the two readers, so the
call's send history is the initializer sends followed by the relay
sends. -/
def handle_media_stream_sends (tr : List Event) : List OutMsg :=
  initialize_session.map OutMsg.toOpenAI ++ (run initialState tr).2

/-! ## Event shorthands and output counters -/

/-- Inbound Twilio `media` message. -/
def mediaMsg (p : String) (ts : Int) : TwilioMsg :=
  TwilioMsg.valid
    { event := some "media"
      mediaTimestamp := some ts
      mediaPayload := some p
      startStreamSid := none
      markName := none }

/-- Inbound Twilio `start` message. -/
def startMsg (sid : String) : TwilioMsg :=
  TwilioMsg.valid
    { event := some "start"
      mediaTimestamp := none
      mediaPayload := none
      startStreamSid := some sid
      markName := none }

/-- Inbound Twilio `mark` acknowledgment message. -/
def markMsg : TwilioMsg :=
  TwilioMsg.valid
    { event := some "mark"
      mediaTimestamp := none
      mediaPayload := none
      startStreamSid := none
      markName := some "responsePart" }

/-- Inbound OpenAI `response.audio.delta` message. -/
def deltaMsg (delta item : String) : OpenAIMsg :=
  OpenAIMsg.valid
    { type := some "response.audio.delta"
      delta := some delta
      item_id := some item }

/-- Inbound OpenAI `input_audio_buffer.speech_started` message. -/
def speechStartedMsg : OpenAIMsg :=
  OpenAIMsg.valid
    { type := some "input_audio_buffer.speech_started"
      delta := none
      item_id := none }

/-- Does this event carry an inbound Twilio message whose `event` field
is `"start"`? -/
def isStartEvt : Event → Bool
  | Event.twilio (TwilioMsg.valid d) =>
      match d.event with
      | some ev => ev == "start"
      | none => false
  | _ => false

/-- Is this sent message an outbound Twilio mark frame? -/
def isMarkFrame : OutMsg → Bool
  | OutMsg.toTwilio (TwilioFrame.mark _ _) => true
  | _ => false

/-- Is this sent message an outbound Twilio media frame? -/
def isMediaFrame : OutMsg → Bool
  | OutMsg.toTwilio (TwilioFrame.media _ _) => true
  | _ => false

/-- Is this sent message bound for the Twilio connection? -/
def isToTwilio : OutMsg → Bool
  | OutMsg.toTwilio _ => true
  | _ => false

/-- Number of outbound Twilio mark frames in a send list. -/
def countMarkFrames : List OutMsg → Nat
  | [] => 0
  | o :: os => (if isMarkFrame o then 1 else 0) + countMarkFrames os

/-- Number of outbound Twilio media frames in a send list (one per
forwarded audio delta). -/
def countMediaFrames : List OutMsg → Nat
  | [] => 0
  | o :: os => (if isMediaFrame o then 1 else 0) + countMediaFrames os

/-- Does this event pop an entry from `mark_queue`: a Twilio `mark`
message that reaches the `mark_queue.pop(0)` statement (reader alive,
not routed to the `media`/`start` branches, queue non-empty)? -/
def popsHere (s : CallState) (e : Event) : Bool :=
  match e with
  | Event.twilio (TwilioMsg.valid d) =>
      match d.event with
      | some ev =>
          s.twilio_reader_alive && !(ev == "media" && s.openai_open)
            && !(ev == "start") && (ev == "mark" && !s.mark_queue.isEmpty)
      | none => false
  | _ => false

/-- Number of Twilio `mark` events along a trace that actually removed
a queue entry. -/
def countPops (s : CallState) : List Event → Nat
  | [] => 0
  | e :: tr => (if popsHere s e then 1 else 0) + countPops (step s e).1 tr

theorem countMarkFrames_append (xs ys : List OutMsg) :
    countMarkFrames (xs ++ ys) = countMarkFrames xs + countMarkFrames ys := by
  induction xs with
  | nil => simp [countMarkFrames]
  | cons x xs ih => simp [countMarkFrames, ih]; omega

/-! ## Relay invariant lemmas -/

/-- Per-step accounting of the mark queue: a step changes the queue
length by (mark frames emitted) − (entries popped). -/
theorem mark_queue_step (s : CallState) (e : Event) :
    (step s e).1.mark_queue.length + (if popsHere s e then 1 else 0)
      = s.mark_queue.length + countMarkFrames (step s e).2 := by
  rcases e with m | _ | m | _
  · rcases m with _ | d
    · simp only [step, popsHere, receive_from_twilio_step, teardownCall]
      split <;> simp [countMarkFrames]
    · rcases hev : d.event with _ | ev
      · simp only [step, popsHere, receive_from_twilio_step, hev, teardownCall]
        split <;> simp [countMarkFrames]
      · simp only [step, popsHere, receive_from_twilio_step, hev]
        by_cases ha : s.twilio_reader_alive = true
        · rw [if_pos ha]
          by_cases h1 : (ev == "media" && s.openai_open) = true
          · rw [if_pos h1]
            simp only [h1, Bool.not_true, Bool.false_and, Bool.and_false, Bool.true_and,
              Bool.false_eq_true, if_false]
            rcases d.mediaTimestamp with _ | ts
            · simp [teardownCall, countMarkFrames]
            · rcases d.mediaPayload with _ | p
              · simp [teardownCall, countMarkFrames]
              · simp [countMarkFrames, isMarkFrame]
          · rw [if_neg h1]
            by_cases h2 : (ev == "start") = true
            · rw [if_pos h2]
              simp only [h2, Bool.not_true, Bool.and_false, Bool.false_and,
                Bool.false_eq_true, if_false]
              rcases d.startStreamSid with _ | sid
              · simp [teardownCall, countMarkFrames]
              · simp [countMarkFrames]
            · rw [if_neg h2]
              by_cases h3 : (ev == "mark" && !s.mark_queue.isEmpty) = true
              · rw [if_pos h3]
                have hne : s.mark_queue ≠ [] := by
                  have h4 := h3
                  simp only [Bool.and_eq_true, Bool.not_eq_true'] at h4
                  simpa using h4.2
                have hlen : 0 < s.mark_queue.length := List.length_pos.mpr hne
                simp only [ha, Bool.true_and, Bool.eq_false_iff.mpr h1,
                  Bool.not_false, Bool.eq_false_iff.mpr h2, h3, Bool.and_self,
                  Bool.and_true, Bool.true_and, if_true, countMarkFrames]
                simp [List.length_tail]
                omega
              · rw [if_neg h3]
                simp [h3, countMarkFrames]
        · rw [if_neg ha]
          have ha2 : s.twilio_reader_alive = false := by
            simpa using ha
          simp [ha2, countMarkFrames]
  · simp only [step, popsHere]
    split <;> simp [countMarkFrames]
  · rcases m with _ | d
    · simp only [step, popsHere, send_to_twilio_step]
      split <;> simp [countMarkFrames]
    · simp only [step, popsHere, send_to_twilio_step, send_mark, handle_speech_started_event]
      repeat' split
      all_goals simp_all [countMarkFrames, isMarkFrame]
  · simp only [step, popsHere]
    split <;> simp [countMarkFrames]

/-- Trace-level accounting of the mark queue: its length plus the
entries popped equals its initial length plus the mark frames
emitted. -/
theorem mark_queue_run (s : CallState) (tr : List Event) :
    (run s tr).1.mark_queue.length + countPops s tr
      = s.mark_queue.length + countMarkFrames (run s tr).2 := by
  induction tr generalizing s with
  | nil => simp [run, countPops, countMarkFrames]
  | cons e tr ih =>
      simp only [run, countPops, countMarkFrames_append]
      have h1 := mark_queue_step s e
      have h2 := ih (step s e).1
      omega

/-- A call whose two reader loops have both exited processes nothing
further. -/
theorem step_dead_call (s : CallState) (e : Event)
    (h1 : s.twilio_reader_alive = false) (h2 : s.openai_reader_alive = false) :
    step s e = (s, []) := by
  rcases e with m | _ | m | _ <;> simp [step, h1, h2]

theorem run_dead_call (s : CallState) (tr : List Event)
    (h1 : s.twilio_reader_alive = false) (h2 : s.openai_reader_alive = false) :
    run s tr = (s, []) := by
  induction tr with
  | nil => rfl
  | cons e tr ih => simp [run, step_dead_call s e h1 h2, ih]

/-- Once the OpenAI reader loop has exited it stays dead, and no
further step sends anything to the Twilio connection. -/
theorem step_openai_reader_dead (s : CallState) (e : Event)
    (h : s.openai_reader_alive = false) :
    (step s e).1.openai_reader_alive = false
      ∧ ∀ m ∈ (step s e).2, isToTwilio m = false := by
  rcases e with m | _ | m | _
  · rcases m with _ | d <;>
      · simp only [step, receive_from_twilio_step]
        repeat' split
        all_goals simp_all [teardownCall, isToTwilio]
  · simp only [step]
    split <;> simp [h]
  · simp [step, h]
  · simp only [step]
    split <;> simp_all

theorem run_openai_reader_dead (s : CallState) (tr : List Event)
    (h : s.openai_reader_alive = false) :
    (run s tr).1.openai_reader_alive = false
      ∧ ∀ m ∈ (run s tr).2, isToTwilio m = false := by
  induction tr generalizing s with
  | nil => exact ⟨h, by simp [run]⟩
  | cons e tr ih =>
      have h1 := step_openai_reader_dead s e h
      have h2 := ih (step s e).1 h1.1
      refine ⟨h2.1, ?_⟩
      simp only [run, List.mem_append]
      rintro m (hm | hm)
      · exact h1.2 m hm
      · exact h2.2 m hm

/-- No step other than the Twilio disconnect changes `twilio_open`:
the relay code never closes the Twilio websocket itself. -/
theorem step_preserves_twilio_open (s : CallState) (e : Event)
    (h : e ≠ Event.twilioDisconnect) :
    (step s e).1.twilio_open = s.twilio_open := by
  rcases e with m | _ | m | _
  · rcases m with _ | d <;>
      · simp only [step, receive_from_twilio_step]
        repeat' split
        all_goals simp_all [teardownCall]
  · exact absurd rfl h
  · rcases m with _ | d <;>
      · simp only [step, send_to_twilio_step, send_mark, handle_speech_started_event]
        repeat' split
        all_goals simp_all
  · simp only [step]
    split <;> rfl

theorem run_preserves_twilio_open (s : CallState) (tr : List Event)
    (h : ∀ e ∈ tr, e ≠ Event.twilioDisconnect) :
    (run s tr).1.twilio_open = s.twilio_open := by
  induction tr generalizing s with
  | nil => rfl
  | cons e tr ih =>
      simp only [run]
      rw [ih (step s e).1 fun x hx => h x (by simp [hx])]
      exact step_preserves_twilio_open s e (h e (by simp))

/-- While no `start` event has been processed, `stream_sid` stays
unset and no step emits a Twilio mark frame. -/
theorem step_no_start (s : CallState) (e : Event)
    (hs : s.stream_sid = none) (he : isStartEvt e = false) :
    (step s e).1.stream_sid = none
      ∧ ∀ m ∈ (step s e).2, isMarkFrame m = false := by
  rcases e with m | _ | m | _
  · rcases m with _ | d
    · simp only [step, receive_from_twilio_step]
      repeat' split
      all_goals simp_all [teardownCall, isMarkFrame]
    · simp only [isStartEvt] at he
      simp only [step, receive_from_twilio_step]
      repeat' split
      all_goals simp_all [teardownCall, isMarkFrame]
  · simp only [step]
    split <;> simp_all
  · rcases m with _ | d
    · simp only [step, send_to_twilio_step]
      repeat' split
      all_goals simp_all
    · simp only [step, send_to_twilio_step, send_mark, handle_speech_started_event]
      repeat' split
      all_goals simp_all [isMarkFrame]
  · simp only [step]
    split <;> simp_all

theorem run_no_start (s : CallState) (tr : List Event)
    (hs : s.stream_sid = none) (he : ∀ e ∈ tr, isStartEvt e = false) :
    (run s tr).1.stream_sid = none
      ∧ ∀ m ∈ (run s tr).2, isMarkFrame m = false := by
  induction tr generalizing s with
  | nil => exact ⟨hs, by simp [run]⟩
  | cons e tr ih =>
      have h1 := step_no_start s e hs (he e (by simp))
      have h2 := ih (step s e).1 h1.1 fun x hx => he x (by simp [hx])
      refine ⟨h2.1, ?_⟩
      simp only [run, List.mem_append]
      rintro m (hm | hm)
      · exact h1.2 m hm
      · exact h2.2 m hm

/-! ## Claims -/

/-- Claim C9: for every call, the session initializer's three sends —
session configuration, priming conversational item, response-generation
request — are issued in that order, and all three precede every send
produced by the reader loops. -/
theorem c9_initializer_before_readers (tr : List Event) :
    (handle_media_stream_sends tr).take 3
      = [OutMsg.toOpenAI (AISend.sessionUpdate "server_vad" "g711_ulaw" "g711_ulaw"
          VOICE "ja" SYSTEM_MESSAGE ["text", "audio"]),
        OutMsg.toOpenAI (AISend.conversationItemCreate "assistant"
          "こんにちは。AI音声アシスタントです。フロントガラス交換について何でもお話しください。"),
        OutMsg.toOpenAI AISend.responseCreate]
      ∧ (handle_media_stream_sends tr).drop 3 = (run initialState tr).2 :=
  ⟨rfl, rfl⟩

/-- Claim C6: every inbound Twilio media event received while
`stream_sid` is still unset is still forwarded to the OpenAI connection
as an `input_audio_buffer.append` message, in arrival order. -/
theorem c6_pre_start_media_forwarded (s : CallState) (ps : List (String × Int))
    (hsid : s.stream_sid = none) (ha : s.twilio_reader_alive = true)
    (ho : s.openai_open = true) :
    (run s (ps.map fun q => Event.twilio (mediaMsg q.1 q.2))).2
      = ps.map fun q => OutMsg.toOpenAI (AISend.audioAppend q.1) := by
  induction ps generalizing s with
  | nil => rfl
  | cons q ps ih =>
      simp only [List.map_cons, run]
      have hstep : step s (Event.twilio (mediaMsg q.1 q.2))
          = ({ s with latest_media_timestamp := q.2 },
            [OutMsg.toOpenAI (AISend.audioAppend q.1)]) := by
        simp [step, ha, receive_from_twilio_step, mediaMsg, ho]
      rw [hstep]
      rw [ih { s with latest_media_timestamp := q.2 } hsid ha ho]
      rfl

theorem c6_pre_start_media_witness :
    (run initialState ([("QUJD", (100 : Int)), ("RUZH", 200)].map
        fun q => Event.twilio (mediaMsg q.1 q.2))).2
      = [("QUJD", (100 : Int)), ("RUZH", 200)].map
          fun q => OutMsg.toOpenAI (AISend.audioAppend q.1) :=
  c6_pre_start_media_forwarded initialState [("QUJD", 100), ("RUZH", 200)] rfl rfl rfl

/-- Claim C7 (amended): an inbound Twilio media event is processed only
when the OpenAI connection is open, in which case
`latest_media_timestamp` is set to the event's timestamp and the
payload is forwarded as `input_audio_buffer.append`; when the OpenAI
connection is closed the event is ignored entirely — the timestamp is
not updated and nothing is sent.  The spec's concrete scenario (start
"SS1", then media "QUJD" at 100) holds. -/
theorem c7_media_update_and_forward (s : CallState) (p : String) (ts : Int)
    (ha : s.twilio_reader_alive = true) :
    (s.openai_open = true →
        step s (Event.twilio (mediaMsg p ts))
          = ({ s with latest_media_timestamp := ts },
            [OutMsg.toOpenAI (AISend.audioAppend p)]))
      ∧ (s.openai_open = false → step s (Event.twilio (mediaMsg p ts)) = (s, []))
      ∧ run initialState [Event.twilio (startMsg "SS1"), Event.twilio (mediaMsg "QUJD" 100)]
          = ({ initialState with stream_sid := some "SS1", latest_media_timestamp := 100 },
            [OutMsg.toOpenAI (AISend.audioAppend "QUJD")]) := by
  refine ⟨fun ho => ?_, fun ho => ?_, by decide⟩
  · simp [step, ha, receive_from_twilio_step, mediaMsg, ho]
  · simp [step, ha, receive_from_twilio_step, mediaMsg, ho]

theorem c7_media_witness :
    step initialState (Event.twilio (mediaMsg "QUJD" (100 : Int)))
      = ({ initialState with latest_media_timestamp := 100 },
        [OutMsg.toOpenAI (AISend.audioAppend "QUJD")]) :=
  (c7_media_update_and_forward initialState "QUJD" 100 rfl).1 rfl

/-- Claim C7 counterexample: a media event processed after the OpenAI
connection has closed does not update `latest_media_timestamp` to the
event's timestamp (the update sits inside the `and openai_ws.open`
branch), refuting the unconditional update. -/
theorem c7_counterexample :
    (run initialState
        [Event.openaiEof, Event.twilio (mediaMsg "QUJD" 100)]).1.latest_media_timestamp = 0
      ∧ (run initialState [Event.openaiEof, Event.twilio (mediaMsg "QUJD" 100)]).2 = [] := by
  decide

/-- Claim C10: an audio delta processed while `stream_sid` is unset
still sends a Twilio media frame whose stream identifier is null, but
`send_mark`'s truthiness guard fails silently: no mark frame is emitted
and `mark_queue` is unchanged. -/
theorem c10_delta_without_stream (s : CallState) (delta item p : String)
    (hra : s.openai_reader_alive = true) (hoo : s.openai_open = true)
    (hto : s.twilio_open = true) (hsid : s.stream_sid = none)
    (hre : reencodePayload delta = some p) :
    (step s (Event.openai (deltaMsg delta item))).2
        = [OutMsg.toTwilio (TwilioFrame.media none p)]
      ∧ (step s (Event.openai (deltaMsg delta item))).1.mark_queue = s.mark_queue := by
  by_cases hti : truthy (some item) = true
  · simp [step, hra, hoo, send_to_twilio_step, deltaMsg, hre, hto, hti, send_mark, hsid]
  · simp [step, hra, hoo, send_to_twilio_step, deltaMsg, hre, hto, hti, send_mark, hsid]

theorem c10_delta_without_stream_witness :
    (step initialState (Event.openai (deltaMsg "WFlZ" "item1"))).2
        = [OutMsg.toTwilio (TwilioFrame.media none "WFlZ")]
      ∧ (step initialState (Event.openai (deltaMsg "WFlZ" "item1"))).1.mark_queue
        = initialState.mark_queue :=
  c10_delta_without_stream initialState "WFlZ" "item1" "WFlZ" rfl rfl rfl rfl (by decide)

/-- Claim C8: an audio delta carrying a (canonically base64-encoded)
payload and a non-empty `item_id`, processed after `stream_sid` is set,
sends a media frame tagged with the current stream id whose payload is
the delta unchanged, followed by a mark frame; `last_assistant_item`
becomes the item id and `mark_queue` grows by exactly one. -/
theorem c8_delta_forwarding (s : CallState) (bs : List Nat) (delta item sid : String)
    (hra : s.openai_reader_alive = true) (hoo : s.openai_open = true)
    (hto : s.twilio_open = true) (hsid : s.stream_sid = some sid) (hsid2 : sid ≠ "")
    (hitem : item ≠ "") (hdelta : delta = String.mk (b64encodeList bs))
    (hbs : ∀ b ∈ bs, b < 256) :
    step s (Event.openai (deltaMsg delta item))
        = ({ s with
              last_assistant_item := some item
              mark_queue := s.mark_queue ++ ["responsePart"] },
          [OutMsg.toTwilio (TwilioFrame.media (some sid) delta),
            OutMsg.toTwilio (TwilioFrame.mark sid "responsePart")])
      ∧ (step s (Event.openai (deltaMsg delta item))).1.mark_queue.length
        = s.mark_queue.length + 1 := by
  have hre : reencodePayload delta = some delta := by
    rw [hdelta]; exact reencode_of_encode bs hbs
  have hti : truthy (some item) = true := by
    simp [truthy, bne_iff_ne, hitem]
  have hts : (sid != "") = true := by
    simp [bne_iff_ne, hsid2]
  have hmain : step s (Event.openai (deltaMsg delta item))
      = ({ s with
            last_assistant_item := some item
            mark_queue := s.mark_queue ++ ["responsePart"] },
        [OutMsg.toTwilio (TwilioFrame.media (some sid) delta),
          OutMsg.toTwilio (TwilioFrame.mark sid "responsePart")]) := by
    simp [step, hra, hoo, send_to_twilio_step, deltaMsg, hre, hto, hti, send_mark,
      hsid, hts]
  refine ⟨hmain, ?_⟩
  rw [hmain]
  simp

theorem c8_delta_forwarding_witness :
    step { initialState with stream_sid := some "SS1" }
        (Event.openai (deltaMsg "WFlZ" "item1"))
      = ({ initialState with
            stream_sid := some "SS1"
            last_assistant_item := some "item1"
            mark_queue := ["responsePart"] },
        [OutMsg.toTwilio (TwilioFrame.media (some "SS1") "WFlZ"),
          OutMsg.toTwilio (TwilioFrame.mark "SS1" "responsePart")]) := by
  have h := c8_delta_forwarding { initialState with stream_sid := some "SS1" }
    [88, 89, 89] "WFlZ" "item1" "SS1" rfl rfl rfl rfl (by decide) (by decide) (by decide)
    (by decide)
  exact h.1.trans (by decide)

/-- The barge-in trace of claim C1: the agent sends a chunk of
"item1", the caller starts speaking, the agent sends another chunk of
the same item. -/
def c1trace : List Event :=
  [Event.twilio (startMsg "SS1"), Event.openai (deltaMsg "WFlZ" "item1"),
    Event.openai speechStartedMsg, Event.openai (deltaMsg "WFlZ" "item1")]

/-- Claim C1, evaluated at the failing trace: the speech-started event
reaches `handle_speech_started_event`, which is a log-only stub, so
`last_assistant_item` is not cleared, `mark_queue` is not reset, and
the next chunk of the interrupted item is still forwarded to
Twilio. -/
theorem c1_barge_in_stub_behavior :
    (run initialState c1trace).1.last_assistant_item = some "item1"
      ∧ (run initialState c1trace).1.mark_queue = ["responsePart", "responsePart"]
      ∧ (run initialState c1trace).2.filter isMediaFrame
          = [OutMsg.toTwilio (TwilioFrame.media (some "SS1") "WFlZ"),
            OutMsg.toTwilio (TwilioFrame.media (some "SS1") "WFlZ")]
      ∧ ∀ s : CallState, handle_speech_started_event s = (s, []) :=
  ⟨by decide, by decide, by decide, fun s => rfl⟩

/-- Claim C2 (amended): no outbound Twilio mark frame is ever sent
before a start event has set `stream_sid`; media frames, however, are
sent regardless, carrying a null stream identifier. -/
theorem c2_no_mark_before_start (tr : List Event)
    (h : ∀ e ∈ tr, isStartEvt e = false) :
    ∀ m ∈ (run initialState tr).2, isMarkFrame m = false :=
  (run_no_start initialState tr rfl h).2

theorem c2_no_mark_before_start_witness :
    isMarkFrame (OutMsg.toTwilio (TwilioFrame.media none "WFlZ")) = false :=
  c2_no_mark_before_start [Event.openai (deltaMsg "WFlZ" "item1")] (by decide)
    (OutMsg.toTwilio (TwilioFrame.media none "WFlZ")) (by decide)

/-- Claim C2 counterexample: an audio delta arriving before any start
event makes the relay send an outbound Twilio media frame (with
`streamSid` null) although `stream_sid` was never set, refuting the
claim for media frames. -/
theorem c2_counterexample :
    (run initialState [Event.openai (deltaMsg "WFlZ" "item1")]).2
        = [OutMsg.toTwilio (TwilioFrame.media none "WFlZ")]
      ∧ (run initialState [Event.openai (deltaMsg "WFlZ" "item1")]).1.stream_sid = none := by
  decide

/-- Claim C3 (amended): a malformed inbound frame is not merely
dropped.  On the Twilio side the decode error is uncaught (only
`WebSocketDisconnect` is handled) and tears the whole call down — no
further frame of either reader is processed.  On the OpenAI side the
blanket handler exits that reader loop, after which nothing is ever
sent to Twilio again. -/
theorem c3_malformed_frame_ends_reader (s : CallState) (rest : List Event)
    (h1 : s.twilio_reader_alive = true) (h2 : s.openai_reader_alive = true)
    (h3 : s.openai_open = true) :
    run s (Event.twilio TwilioMsg.malformed :: rest) = (teardownCall s, [])
      ∧ (run s (Event.openai OpenAIMsg.malformed :: rest)).1.openai_reader_alive = false
      ∧ ∀ m ∈ (run s (Event.openai OpenAIMsg.malformed :: rest)).2,
          isToTwilio m = false := by
  have hstep1 : step s (Event.twilio TwilioMsg.malformed) = (teardownCall s, []) := by
    simp [step, h1, receive_from_twilio_step]
  have hstep2 : step s (Event.openai OpenAIMsg.malformed)
      = ({ s with openai_reader_alive := false }, []) := by
    simp [step, h2, h3, send_to_twilio_step]
  refine ⟨?_, ?_, ?_⟩
  · simp [run, hstep1, run_dead_call (teardownCall s) rest rfl rfl]
  · simp only [run, hstep2]
    exact (run_openai_reader_dead _ rest rfl).1
  · simp only [run, hstep2, List.nil_append]
    exact (run_openai_reader_dead _ rest rfl).2

theorem c3_malformed_frame_witness :
    run initialState [Event.twilio TwilioMsg.malformed, Event.twilio (mediaMsg "QUJD" 7)]
        = (teardownCall initialState, [])
      ∧ isToTwilio (OutMsg.toOpenAI (AISend.audioAppend "QUJD")) = false := by
  have h := c3_malformed_frame_ends_reader initialState [Event.twilio (mediaMsg "QUJD" 7)]
    rfl rfl rfl
  exact ⟨h.1, h.2.2 (OutMsg.toOpenAI (AISend.audioAppend "QUJD")) (by decide)⟩

/-- Claim C3 counterexample: after an undecodable Twilio frame, the
next well-formed media frame is not processed — nothing is forwarded,
the timestamp is untouched and the reader is dead — so a single bad
frame does terminate the call, refuting drop-and-continue. -/
theorem c3_counterexample :
    (run initialState [Event.twilio TwilioMsg.malformed,
        Event.twilio (mediaMsg "QUJD" 100)]).2 = []
      ∧ (run initialState [Event.twilio TwilioMsg.malformed,
          Event.twilio (mediaMsg "QUJD" 100)]).1.latest_media_timestamp = 0
      ∧ (run initialState [Event.twilio TwilioMsg.malformed,
          Event.twilio (mediaMsg "QUJD" 100)]).1.twilio_reader_alive = false := by
  decide

/-- Claim C4 (amended): a Twilio disconnect closes the OpenAI
connection within the same teardown; but the OpenAI connection closing
mid-call does not close the Twilio connection — the Twilio reader stays
alive, and `twilio_open` is left true by every trace free of Twilio's
own disconnect. -/
theorem c4_teardown_one_sided (s : CallState) (tr : List Event)
    (h1 : s.twilio_reader_alive = true) (h2 : s.openai_reader_alive = true)
    (h3 : ∀ e ∈ tr, e ≠ Event.twilioDisconnect) :
    (step s Event.twilioDisconnect).1.openai_open = false
      ∧ (step s Event.twilioDisconnect).1.twilio_open = false
      ∧ (step s Event.openaiEof).1.openai_open = false
      ∧ (step s Event.openaiEof).1.twilio_open = s.twilio_open
      ∧ (step s Event.openaiEof).1.twilio_reader_alive = s.twilio_reader_alive
      ∧ (run initialState tr).1.twilio_open = true := by
  refine ⟨?_, ?_, ?_, ?_, ?_, ?_⟩
  · simp [step, h1]
  · simp [step, h1]
  · simp [step, h2]
  · simp [step, h2]
  · simp [step, h2]
  · exact run_preserves_twilio_open initialState tr h3

theorem c4_teardown_witness :
    (step initialState Event.twilioDisconnect).1.openai_open = false
      ∧ (step initialState Event.openaiEof).1.twilio_open = initialState.twilio_open
      ∧ (run initialState [Event.openaiEof]).1.twilio_open = true := by
  have h := c4_teardown_one_sided initialState [Event.openaiEof] rfl rfl (by decide)
  exact ⟨h.1, h.2.2.2.1, h.2.2.2.2.2⟩

/-- Claim C4 counterexample: after the OpenAI connection closes
mid-call, the Twilio connection is not closed by the relay — the Twilio
reader keeps running (here consuming one further media frame) and
`twilio_open` remains true, refuting the converse direction. -/
theorem c4_counterexample :
    (run initialState [Event.openaiEof, Event.twilio (mediaMsg "QUJD" 5)]).1.openai_open
        = false
      ∧ (run initialState [Event.openaiEof, Event.twilio (mediaMsg "QUJD" 5)]).1.twilio_open
        = true
      ∧ (run initialState
          [Event.openaiEof, Event.twilio (mediaMsg "QUJD" 5)]).1.twilio_reader_alive
        = true := by
  decide

/-- Claim C5 (amended): at every point of a trace, `mark_queue`'s
length equals the number of mark frames emitted so far (audio deltas
forwarded while `stream_sid` was set) minus the number of Twilio mark
events that removed an entry; the popped count never exceeds the
emitted count (the length cannot go negative), and a mark event
arriving with an empty queue is a no-op. -/
theorem c5_mark_queue_accounting (tr : List Event) (s : CallState)
    (hq : s.mark_queue = []) :
    ((run initialState tr).1.mark_queue.length
        = countMarkFrames (run initialState tr).2 - countPops initialState tr
      ∧ countPops initialState tr ≤ countMarkFrames (run initialState tr).2)
      ∧ step s (Event.twilio markMsg) = (s, []) := by
  constructor
  · have h := mark_queue_run initialState tr
    have h0 : initialState.mark_queue.length = 0 := rfl
    omega
  · simp only [step, receive_from_twilio_step, markMsg]
    split
    · simp [hq]
    · rfl

theorem c5_mark_queue_witness :
    ((run initialState [Event.twilio (startMsg "SS1"),
          Event.openai (deltaMsg "WFlZ" "item1"), Event.twilio markMsg]).1.mark_queue.length
        = countMarkFrames (run initialState [Event.twilio (startMsg "SS1"),
            Event.openai (deltaMsg "WFlZ" "item1"), Event.twilio markMsg]).2
          - countPops initialState [Event.twilio (startMsg "SS1"),
              Event.openai (deltaMsg "WFlZ" "item1"), Event.twilio markMsg]
      ∧ countPops initialState [Event.twilio (startMsg "SS1"),
            Event.openai (deltaMsg "WFlZ" "item1"), Event.twilio markMsg]
          ≤ countMarkFrames (run initialState [Event.twilio (startMsg "SS1"),
              Event.openai (deltaMsg "WFlZ" "item1"), Event.twilio markMsg]).2)
      ∧ step initialState (Event.twilio markMsg) = (initialState, []) :=
  c5_mark_queue_accounting [Event.twilio (startMsg "SS1"),
    Event.openai (deltaMsg "WFlZ" "item1"), Event.twilio markMsg] initialState rfl

/-- Claim C5 counterexample: an audio delta forwarded before any start
event yields one audio-delta-forwarding event (one outbound media
frame), zero marks consumed, but a `pendingMarks` length of 0 — the
claimed equality fails because no mark is enqueued while `stream_sid`
is unset. -/
theorem c5_counterexample :
    ¬ ((run initialState [Event.openai (deltaMsg "WFlZ" "item1")]).1.mark_queue.length
        = countMediaFrames (run initialState [Event.openai (deltaMsg "WFlZ" "item1")]).2
          - countPops initialState [Event.openai (deltaMsg "WFlZ" "item1")]) := by
  decide
